/-
Verification of the marketplace application: the Express listings backend
(`Backend/index.js`) and the React admin payments view, embedded shallowly.
JavaScript numbers that the code only ever treats integrally are modelled
as `Int`/`Nat`; JavaScript `undefined`/`null` as `Option`; library calls
(`parseInt`, `path.extname`, the multer filter, `String.includes`) are
modelled by Lean functions mirroring their documented behaviour.
-/
import Mathlib

namespace FYP

/-! ## JavaScript primitives -/

/-- White-space characters skipped by JavaScript `parseInt` (the common ones). -/
def jsWhitespace (c : Char) : Bool :=
  c = ' ' || c = '\t' || c = '\n' || c = '\r'

/-- Hexadecimal digit test for the `0x` branch of `parseInt`. -/
def isHexDigitCh (c : Char) : Bool :=
  c.isDigit || ('a' ≤ c && c ≤ 'f') || ('A' ≤ c && c ≤ 'F')

/-- Value of one hexadecimal digit. -/
def hexDigitVal (c : Char) : Nat :=
  if c.isDigit then c.toNat - 48
  else if 'a' ≤ c && c ≤ 'f' then c.toNat - 97 + 10
  else c.toNat - 65 + 10

/-- Value of a decimal digit string. -/
def decVal (ds : List Char) : Nat :=
  ds.foldl (fun acc c => acc * 10 + (c.toNat - 48)) 0

/-- Value of a hexadecimal digit string. -/
def hexVal (ds : List Char) : Nat :=
  ds.foldl (fun acc c => acc * 16 + hexDigitVal c) 0

/-- Model of JavaScript `parseInt(s)` with no radix argument: skip leading
white space, read an optional sign, then either a hexadecimal literal after
a `0x`/`0X` marker or the longest decimal-digit run; `none` models `NaN`
(no digits at all). Trailing garbage is ignored, as in JavaScript. -/
def parseIntJS (s : String) : Option Int :=
  let cs := s.data.dropWhile jsWhitespace
  let signBody : Int × List Char :=
    match cs with
    | '-' :: rest => (-1, rest)
    | '+' :: rest => (1, rest)
    | _ => (1, cs)
  match signBody.2 with
  | '0' :: c :: rest =>
    if c = 'x' || c = 'X' then
      let ds := rest.takeWhile isHexDigitCh
      if ds.isEmpty then none else some (signBody.1 * (hexVal ds : Int))
    else
      some (signBody.1 * (decVal (('0' :: c :: rest).takeWhile Char.isDigit) : Int))
  | _ =>
    let ds := signBody.2.takeWhile Char.isDigit
    if ds.isEmpty then none else some (signBody.1 * (decVal ds : Int))

/-- A missing multipart form field reaches `parseInt` as `undefined`, which
string-coerces to `"undefined"`. -/
def formFieldString : Option String → String
  | none => "undefined"
  | some s => s

/-- `parseInt(v) || undefined` from the listing handler: the field is unset
when the parse yields `NaN` (modelled `none`) or the falsy number `0`. -/
def numField (v : Option String) : Option Int :=
  match parseIntJS (formFieldString v) with
  | none => none
  | some n => if n = 0 then none else some n

/-- Head-anchored occurrence of `needle` in `hay`. -/
def leadsWith : List Char → List Char → Bool
  | [], _ => true
  | _ :: _, [] => false
  | a :: as, b :: bs => a == b && leadsWith as bs

/-- Occurrence of `needle` anywhere in `hay`: JavaScript `String.includes`,
and also the effect of testing an unanchored regular expression. -/
def occursIn (needle hay : List Char) : Bool :=
  leadsWith needle hay ||
    match hay with
    | [] => false
    | _ :: t => occursIn needle t

/-- JavaScript `hay.includes(needle)`. -/
def jsIncludes (hay needle : String) : Bool :=
  occursIn needle.data hay.data

/-- JavaScript `toLowerCase`, modelled character-wise (the code only
lowercases ASCII identifiers, names and media types). -/
def lowerStr (s : String) : String :=
  String.mk (s.data.map Char.toLower)

/-! ## Backend: upload validation (`multer` configuration) -/

/-- An uploaded file as multer presents it to the file filter. -/
structure UploadFile where
  originalname : String
  mimetype : String
  size : Nat
  deriving DecidableEq

/-- Model of Node `path.extname` on a plain file name: the suffix starting
at the last dot, empty when there is no dot or the only dot leads. -/
def extname (name : String) : String :=
  let cs := name.data
  let idxs := (List.range cs.length).filter (fun i => cs.getD i ' ' = '.')
  match idxs.getLast? with
  | none => ""
  | some i => if i = 0 then "" else String.mk (cs.drop i)

/-- The file-filter regular expression `/jpeg|jpg|png/` tested against a
string: an unanchored substring match. -/
def filetypesTest (s : String) : Bool :=
  jsIncludes s "jpeg" || jsIncludes s "jpg" || jsIncludes s "png"

/-- The configured multer `fileFilter`: the lowercased extension and the
declared media type must both match `/jpeg|jpg|png/`. -/
def fileFilterOk (f : UploadFile) : Bool :=
  filetypesTest (lowerStr (extname f.originalname)) && filetypesTest f.mimetype

/-- The configured multer size limit: at most 5 MB. -/
def fileSizeOk (f : UploadFile) : Bool :=
  f.size ≤ 5 * 1024 * 1024

/-- Upload failures multer can raise for this route. -/
inductive UploadError
  | badFileType
  | fileTooLarge
  | tooManyFiles
  deriving DecidableEq

/-- Multer processing of the attachments of one request
(`upload.array('images', 5)`): at most 5 files, each passed through the
file filter and the size limit; any violation aborts the request before
the route handler runs. -/
def validateFiles (files : List UploadFile) : Option UploadError :=
  if 5 < files.length then some .tooManyFiles
  else
    match files.find? (fun f => !fileFilterOk f) with
    | some _ => some .badFileType
    | none =>
      match files.find? (fun f => !fileSizeOk f) with
      | some _ => some .fileTooLarge
      | none => none

/-! ## Backend: the listings store and `POST /listings` -/

/-- The multipart body and attachments of a `POST /listings` request. -/
structure ListingReq where
  title : Option String
  type : Option String
  breed : Option String
  age : Option String
  weight : Option String
  price : Option String
  location : Option String
  description : Option String
  forEid : Option String
  files : List UploadFile
  deriving DecidableEq

/-- A stored listing record. -/
structure Listing where
  id : Nat
  title : Option String
  type : Option String
  breed : Option String
  age : Option Int
  weight : Option Int
  price : Option Int
  location : Option String
  description : Option String
  images : List String
  status : String
  listed : String
  rating : Rat
  forEid : Bool
  deriving DecidableEq

/-- The listing built by the `POST /listings` handler; `now` is the ISO
timestamp taken at creation, `ts` the epoch-millis value used in stored
file names (`Date.now()` in the storage callback). -/
def mkListing (listings : List Listing) (r : ListingReq) (now ts : String) : Listing :=
  { id := listings.length + 1
    title := r.title
    type := r.type
    breed := r.breed
    age := numField r.age
    weight := numField r.weight
    price := numField r.price
    location := r.location
    description := r.description
    images := r.files.map (fun f => "/uploads/" ++ ts ++ "-" ++ f.originalname)
    status := "active"
    listed := now
    rating := (9 : Rat) / 2
    forEid := r.forEid == some "true" }

/-- `POST /listings`: upload validation runs first and a failure means the
handler never runs; on success the new listing is appended to the store
and returned. -/
def postListing (listings : List Listing) (r : ListingReq) (now ts : String) :
    Except UploadError (List Listing × Listing) :=
  match validateFiles r.files with
  | some e => .error e
  | none =>
    let l := mkListing listings r now ts
    .ok (listings ++ [l], l)

/-- The store after one request, together with the created listing when
the request succeeded: a failed request leaves the store unchanged. -/
def stepListings (listings : List Listing) (r : ListingReq) (now ts : String) :
    List Listing × Option Listing :=
  match postListing listings r now ts with
  | .ok (st, l) => (st, some l)
  | .error _ => (listings, none)

/-- The store left by a sequence of `POST /listings` requests (each with
its timestamps) starting from the empty in-memory store of a fresh
process. -/
def runPosts (reqs : List (ListingReq × String × String)) : List Listing :=
  reqs.foldl (fun st q => (stepListings st q.1 q.2.1 q.2.2).1) []

/-! ## Frontend: data model of the payments view -/

/-- A line item of an order. -/
structure Item where
  id : String
  title : String
  price : Int
  deriving DecidableEq

/-- The optional payment-details record of an order. -/
structure PaymentDetails where
  bankName : Option String
  accountNumber : Option String
  stripePaymentIntentId : Option String
  deriving DecidableEq

/-- A raw order record as returned by `GET /payment/admin/all`. -/
structure RawOrder where
  id : String
  orderId : String
  buyer : Option String
  seller : Option String
  buyerId : Option Int
  total : Int
  subtotal : Int
  tax : Int
  paymentMethod : String
  paymentDetails : Option PaymentDetails
  status : String
  date : Option String
  items : Option (List Item)
  deriving DecidableEq

/-- The `Payment` view model rendered by the payments table. -/
structure Payment where
  id : String
  orderId : String
  buyer : Option String
  seller : Option String
  buyerId : Option Int
  amount : Int
  total : Int
  subtotal : Int
  tax : Int
  method : String
  paymentMethod : String
  paymentDetails : Option PaymentDetails
  status : String
  date : Option String
  items : List Item
  deriving DecidableEq

/-- JavaScript truthiness of a nullable string: null and "" are falsy. -/
def truthyS : Option String → Bool
  | none => false
  | some s => !(s == "")

/-- JavaScript truthiness of a nullable number: null and 0 are falsy. -/
def truthyI : Option Int → Bool
  | none => false
  | some n => !(n == 0)

/-- JavaScript `a || b` for a nullable string `a`. -/
def jsOrS (a : Option String) (b : String) : String :=
  match a with
  | some s => if s == "" then b else s
  | none => b

/-- The interpolation `Buyer ID: ${order.buyerId || 'Unknown'}`. -/
def buyerTag (buyerId : Option Int) : String :=
  "Buyer ID: " ++
    (match buyerId with
      | some n => if n == 0 then "Unknown" else toString n
      | none => "Unknown")

/-- The mapping of one raw order into the `Payment` view model
(`transformedPayments`). -/
def transformOrder (o : RawOrder) : Payment :=
  { id := o.id
    orderId := o.orderId
    buyer := some (jsOrS o.buyer (buyerTag o.buyerId))
    seller := some (jsOrS o.seller "Unknown Seller")
    buyerId := o.buyerId
    amount := o.total
    total := o.total
    subtotal := o.subtotal
    tax := o.tax
    method := o.paymentMethod
    paymentMethod := o.paymentMethod
    paymentDetails := o.paymentDetails
    status := o.status
    date := o.date
    items := o.items.getD [] }

/-! ## Frontend: the fetch effect -/

/-- Outcome of the awaited network request. -/
inductive FetchResult where
  | ok (data : List RawOrder)
  | err (message : String)

/-- The component state touched by the effect: the payments list, the
loading flag, and the toast notifications emitted. -/
structure ViewState where
  payments : List Payment
  isLoading : Bool
  toasts : List String
  deriving DecidableEq

/-- The state at mount: `useState<Payment[]>([])`, `useState(true)`. -/
def initialView : ViewState :=
  { payments := [], isLoading := true, toasts := [] }

/-- The `fetchPayments` effect body: set loading, await the fetch; on
success store the transformed payments, on failure log and emit one error
toast leaving the list untouched; the `finally` block clears the loading
flag on both paths. A rejection is absorbed here, never rethrown. -/
def fetchPayments (st : ViewState) (res : FetchResult) : ViewState :=
  let st1 := { st with isLoading := true }
  match res with
  | .ok data =>
    { st1 with payments := data.map transformOrder, isLoading := false }
  | .err _ =>
    { st1 with
        toasts := st1.toasts ++ ["Failed to load payment data. Please try again."],
        isLoading := false }

/-! ## Frontend: search -/

/-- The predicate of `filteredPayments`: each nullable field is guarded by
its truthiness before `includes` runs, and both sides are lowercased. -/
def searchMatch (term : String) (p : Payment) : Bool :=
  (match p.buyer with
    | some b => !(b == "") && jsIncludes (lowerStr b) (lowerStr term)
    | none => false) ||
  (match p.seller with
    | some s => !(s == "") && jsIncludes (lowerStr s) (lowerStr term)
    | none => false) ||
  jsIncludes (lowerStr p.orderId) (lowerStr term) ||
  jsIncludes (lowerStr p.paymentMethod) (lowerStr term)

/-- `filteredPayments`: the records the free-text search keeps. -/
def filteredPayments (term : String) (l : List Payment) : List Payment :=
  l.filter (searchMatch term)

/-- The specification's search condition: the term is a case-insensitive
substring of at least one of buyer, seller, order identifier, or payment
method (a missing field matches nothing). -/
def specSearchHit (term : String) (p : Payment) : Bool :=
  (match p.buyer with
    | some b => jsIncludes (lowerStr b) (lowerStr term)
    | none => false) ||
  (match p.seller with
    | some s => jsIncludes (lowerStr s) (lowerStr term)
    | none => false) ||
  jsIncludes (lowerStr p.orderId) (lowerStr term) ||
  jsIncludes (lowerStr p.paymentMethod) (lowerStr term)

/-! ## Frontend: sorting -/

/-- The two sort directions. -/
inductive SortDir where
  | asc
  | desc
  deriving DecidableEq

/-- The sort state of the view: active column and direction. -/
structure SortState where
  sortColumn : Option String
  sortDirection : SortDir
  deriving DecidableEq

/-- `sortDirection === "asc" ? "desc" : "asc"`. -/
def toggleDir : SortDir → SortDir
  | .asc => .desc
  | .desc => .asc

/-- `handleSort`: toggle the direction on the active column, otherwise
select the clicked column with ascending direction. -/
def handleSort (column : String) (st : SortState) : SortState :=
  if st.sortColumn == some column then
    { st with sortDirection := toggleDir st.sortDirection }
  else
    { sortColumn := some column, sortDirection := .asc }

/-- The sign applied by the comparator for each direction. -/
def dirVal : SortDir → Int
  | .asc => 1
  | .desc => -1

/-- Three-way code-point comparison of character lists, the model of
`localeCompare` (locale-aware collation modelled as code-point order). -/
def strCmp : List Char → List Char → Int
  | [], [] => 0
  | [], _ :: _ => -1
  | _ :: _, [] => 1
  | a :: as, b :: bs =>
    if a.toNat < b.toNat then -1
    else if b.toNat < a.toNat then 1
    else strCmp as bs

/-- `(x || '').localeCompare(y || '')`: nullable strings compare as "". -/
def localeCmp (x y : Option String) : Int :=
  strCmp (jsOrS x "").data (jsOrS y "").data

/-- `a.date ? new Date(a.date).getTime() : 0` for an arbitrary model `gt`
of `Date` parsing to epoch milliseconds: a falsy (missing or empty) date
is the epoch. -/
def dateKey (gt : String → Int) : Option String → Int
  | none => 0
  | some s => if s == "" then 0 else gt s

/-- The `sortedPayments` comparator: a signed integer ordering `a`
against `b` for the selected column and direction; no column, or an
unknown column, compares everything equal. -/
def paymentCompare (gt : String → Int) (col : Option String) (dir : SortDir)
    (a b : Payment) : Int :=
  match col with
  | none => 0
  | some c =>
    if c == "date" then dirVal dir * (dateKey gt a.date - dateKey gt b.date)
    else if c == "amount" then dirVal dir * (a.amount - b.amount)
    else if c == "buyer" then dirVal dir * localeCmp a.buyer b.buyer
    else if c == "seller" then dirVal dir * localeCmp a.seller b.seller
    else if c == "status" then dirVal dir * strCmp a.status.data b.status.data
    else 0

/-- The "may precede" relation induced by the comparator. -/
def cmpLE (gt : String → Int) (col : Option String) (dir : SortDir)
    (a b : Payment) : Bool :=
  paymentCompare gt col dir a b ≤ 0

/-- `[...filteredPayments].sort(comparator)`: a sort consistent with the
comparator over a copy of the filtered list. -/
def sortedPayments (gt : String → Int) (col : Option String) (dir : SortDir)
    (l : List Payment) : List Payment :=
  l.mergeSort (cmpLE gt col dir)

/-! ## Frontend: status tabs and formatters -/

/-- `filterPaymentsByStatus`, applied to the searched-and-sorted list. -/
def filterPaymentsByStatus (tab : String) (l : List Payment) : List Payment :=
  if tab == "all-payments" then l
  else l.filter (fun p => lowerStr p.status == lowerStr tab)

/-- One tab's record count as the tab bar renders it, computed over the
full fetched collection; the named tabs compare against the lowercase
literal tab value. -/
def tabCount (payments : List Payment) (tab : String) : Nat :=
  if tab == "all-payments" then payments.length
  else (payments.filter (fun p => lowerStr p.status == tab)).length

/-- The list one tab displays: the status filter runs after search and
sort. -/
def displayedPayments (gt : String → Int) (term : String) (col : Option String)
    (dir : SortDir) (tab : String) (payments : List Payment) : List Payment :=
  filterPaymentsByStatus tab (sortedPayments gt col dir (filteredPayments term payments))

/-- `formatDate`: "N/A" for a falsy (missing or empty) date, otherwise the
locale-formatted date for an arbitrary formatter `fmt`. -/
def formatDate (fmt : String → String) : Option String → String
  | none => "N/A"
  | some s => if s == "" then "N/A" else fmt s

/-- `formatPaymentDetails`. -/
def formatPaymentDetails : Option PaymentDetails → String
  | none => "N/A"
  | some d =>
    if truthyS d.bankName && truthyS d.accountNumber then
      jsOrS d.bankName "" ++ " - " ++ jsOrS d.accountNumber ""
    else if truthyS d.stripePaymentIntentId then "Stripe Payment"
    else "N/A"

/-! ## Concrete requests used in witnesses and counterexamples -/

/-- A request with no form fields and no attachments. -/
def reqEmpty : ListingReq :=
  { title := none, type := none, breed := none, age := none, weight := none,
    price := none, location := none, description := none, forEid := none,
    files := [] }

/-- A request whose age field is the string `"0"`. -/
def reqAgeZero : ListingReq :=
  { reqEmpty with title := some "goat", age := some "0" }

/-- A request whose age field is the string `"7"`. -/
def reqAgeSeven : ListingReq :=
  { reqEmpty with age := some "7" }

/-- An APNG attachment: not JPEG or PNG, but its extension and media type
both contain `"png"` as a substring. -/
def apngFile : UploadFile :=
  { originalname := "anim.apng", mimetype := "image/apng", size := 100 }

/-- A request carrying the APNG attachment. -/
def reqApng : ListingReq :=
  { reqEmpty with files := [apngFile] }

/-- A GIF attachment: rejected by the file filter. -/
def gifFile : UploadFile :=
  { originalname := "cat.gif", mimetype := "image/gif", size := 100 }

/-- A request carrying the GIF attachment. -/
def reqGif : ListingReq :=
  { reqEmpty with files := [gifFile] }

/-- JPEG or PNG in the sense of the specification's words: the file
extension and the declared media type both literally name JPEG or PNG. -/
def specJpegPng (f : UploadFile) : Bool :=
  [".jpeg", ".jpg", ".png"].contains (lowerStr (extname f.originalname)) &&
    ["image/jpeg", "image/jpg", "image/png"].contains f.mimetype

/-! ## Helper lemmas on the backend -/

/-- The unset condition of a numeric form field: absent, unparsable, or
parsed to the falsy integer 0. -/
lemma numField_none_iff (v : Option String) :
    numField v = none ↔
      (v = none ∨ parseIntJS (formFieldString v) = none ∨
        parseIntJS (formFieldString v) = some 0) := by
  cases v with
  | none =>
    simp [numField, show parseIntJS (formFieldString none) = none from by decide]
  | some s =>
    unfold numField
    cases hp : parseIntJS (formFieldString (some s)) with
    | none => simp
    | some n =>
      by_cases hn : n = 0
      · subst hn; simp
      · simp [hn]

/-- A numeric form field that parses to a nonzero integer is kept. -/
lemma numField_some (v : Option String) (n : Int)
    (hp : parseIntJS (formFieldString v) = some n) (hn : n ≠ 0) :
    numField v = some n := by
  unfold numField
  rw [hp]
  simp [hn]

/-- A successful `POST /listings` returns the listing built by
`mkListing` and appends it to the store. -/
lemma postListing_ok (st st' : List Listing) (r : ListingReq) (now ts : String)
    (l : Listing) (hok : postListing st r now ts = .ok (st', l)) :
    l = mkListing st r now ts ∧ st' = st ++ [l] := by
  unfold postListing at hok
  cases hv : validateFiles r.files with
  | some e => rw [hv] at hok; simp at hok
  | none =>
    rw [hv] at hok
    simp only [Except.ok.injEq, Prod.mk.injEq] at hok
    exact ⟨hok.2.symm, by rw [← hok.1, hok.2]⟩

/-! ## C1: parsing of numeric listing fields -/

/-- C1 (counterexample): the form value "0" parses as the integer 0, yet
the created listing's age field is unset, because `parseInt(age) ||
undefined` treats the falsy number 0 like a failed parse. The claim says
the field should carry the parsed integer whenever the parse succeeds. -/
theorem claim_C1_counterexample :
    parseIntJS "0" = some 0 ∧
      (mkListing [] reqAgeZero "now" "0").age ≠ some 0 := by
  decide

/-- C1 (amended): for every successful POST /listings, each of the numeric
fields age, weight, price of the created listing is unset exactly when the
form field is absent, fails to parse as an integer, or parses to the falsy
integer 0; when it parses to a nonzero integer the listing carries that
integer. -/
theorem claim_C1_amended (st st' : List Listing) (r : ListingReq) (now ts : String)
    (l : Listing) (hok : postListing st r now ts = .ok (st', l)) :
    ((l.age = none ↔
        (r.age = none ∨ parseIntJS (formFieldString r.age) = none ∨
          parseIntJS (formFieldString r.age) = some 0)) ∧
      ∀ n : Int, parseIntJS (formFieldString r.age) = some n → n ≠ 0 → l.age = some n) ∧
    ((l.weight = none ↔
        (r.weight = none ∨ parseIntJS (formFieldString r.weight) = none ∨
          parseIntJS (formFieldString r.weight) = some 0)) ∧
      ∀ n : Int, parseIntJS (formFieldString r.weight) = some n → n ≠ 0 → l.weight = some n) ∧
    ((l.price = none ↔
        (r.price = none ∨ parseIntJS (formFieldString r.price) = none ∨
          parseIntJS (formFieldString r.price) = some 0)) ∧
      ∀ n : Int, parseIntJS (formFieldString r.price) = some n → n ≠ 0 → l.price = some n) := by
  obtain ⟨hl, -⟩ := postListing_ok st st' r now ts l hok
  subst hl
  refine ⟨⟨?_, ?_⟩, ⟨?_, ?_⟩, ⟨?_, ?_⟩⟩
  · simpa [mkListing] using numField_none_iff r.age
  · intro n hp hn; simpa [mkListing] using numField_some r.age n hp hn
  · simpa [mkListing] using numField_none_iff r.weight
  · intro n hp hn; simpa [mkListing] using numField_some r.weight n hp hn
  · simpa [mkListing] using numField_none_iff r.price
  · intro n hp hn; simpa [mkListing] using numField_some r.price n hp hn

/-- C1 (witness): the amended claim at a concrete request whose age is
"7": the created listing carries age 7. -/
theorem claim_C1_witness :
    (mkListing [] reqAgeSeven "n" "t").age = some 7 :=
  ((claim_C1_amended [] [mkListing [] reqAgeSeven "n" "t"] reqAgeSeven "n" "t"
      (mkListing [] reqAgeSeven "n" "t") rfl).1.2) 7 (by decide) (by decide)

/-! ## C2: identifiers are sequential -/

/-- One request preserves the identifier invariant of the store. -/
lemma stepListings_ids (st : List Listing) (r : ListingReq) (now ts : String)
    (h : st.map (·.id) = List.range' 1 st.length) :
    (stepListings st r now ts).1.map (·.id) =
      List.range' 1 (stepListings st r now ts).1.length := by
  unfold stepListings postListing
  cases hv : validateFiles r.files with
  | some e => simpa using h
  | none =>
    simp only [List.map_append, List.length_append, List.length_singleton]
    rw [List.range'_concat]
    simp [mkListing, h, Nat.add_comm]

/-- The identifier invariant holds along any run of requests. -/
lemma runPosts_ids_aux (reqs : List (ListingReq × String × String)) :
    ∀ st : List Listing, st.map (·.id) = List.range' 1 st.length →
      (reqs.foldl (fun st q => (stepListings st q.1 q.2.1 q.2.2).1) st).map (·.id) =
        List.range' 1
          ((reqs.foldl (fun st q => (stepListings st q.1 q.2.1 q.2.2).1) st).length) := by
  induction reqs with
  | nil => intro st h; simpa using h
  | cons q qs ih =>
    intro st h
    exact ih _ (stepListings_ids st q.1 q.2.1 q.2.2 h)

/-- C2: after any sequence of POST /listings requests from a fresh process
the stored identifiers are exactly 1..n; hence they are unique, strictly
increasing, and each successful POST assigns an identifier exactly one
greater than the previous successful POST's. -/
theorem claim_C2_identifiers (reqs : List (ListingReq × String × String)) :
    (runPosts reqs).map (·.id) = List.range' 1 (runPosts reqs).length ∧
    ((runPosts reqs).map (·.id)).Nodup ∧
    List.Pairwise (· < ·) ((runPosts reqs).map (·.id)) ∧
    ∀ i : Nat, i + 1 < (runPosts reqs).length →
      ((runPosts reqs).map (·.id)).getD (i + 1) 0 =
        ((runPosts reqs).map (·.id)).getD i 0 + 1 := by
  have hmap : (runPosts reqs).map (·.id) = List.range' 1 (runPosts reqs).length :=
    runPosts_ids_aux reqs [] (by simp)
  refine ⟨hmap, ?_, ?_, ?_⟩
  · rw [hmap]; exact List.nodup_range' 1 (runPosts reqs).length
  · rw [hmap]; exact List.pairwise_lt_range' 1 (runPosts reqs).length
  · intro i hi
    rw [hmap]
    have h1 : i + 1 < (List.range' 1 (runPosts reqs).length).length := by
      simpa using hi
    have h0 : i < (List.range' 1 (runPosts reqs).length).length := by
      simpa using Nat.lt_of_succ_lt hi
    rw [List.getD_eq_getElem _ _ h1, List.getD_eq_getElem _ _ h0]
    simp [List.getElem_range']
    omega

/-- C2 (witness): two concrete successful POSTs from a fresh process: the
second identifier is the first plus one. -/
theorem claim_C2_witness :
    ((runPosts [(reqEmpty, "a", "b"), (reqEmpty, "c", "d")]).map (·.id)).getD 1 0 =
      ((runPosts [(reqEmpty, "a", "b"), (reqEmpty, "c", "d")]).map (·.id)).getD 0 0 + 1 :=
  (claim_C2_identifiers [(reqEmpty, "a", "b"), (reqEmpty, "c", "d")]).2.2.2 0 (by decide)

/-! ## C3: upload validation -/

/-- C3 (counterexample): an `.apng` attachment is not JPEG/PNG by file
extension or by declared media type and is under 5 MB, yet the request
succeeds and a listing is created, because the filter regular expression
`/jpeg|jpg|png/` performs an unanchored substring match and ".apng" and
"image/apng" both contain "png". -/
theorem claim_C3_counterexample :
    specJpegPng apngFile = false ∧ fileSizeOk apngFile = true ∧
      (stepListings [] reqApng "now" "0").1.length = 1 ∧
      (stepListings [] reqApng "now" "0").2 ≠ none := by
  decide

/-- C3 (amended): a request with an attachment whose lowercased extension
or declared media type fails the substring filter `/jpeg|jpg|png/`, or
whose size exceeds 5 MB, fails with an error before the handler runs: no
listing is created and the collection is unchanged. -/
theorem claim_C3_amended (st : List Listing) (r : ListingReq) (now ts : String)
    (f : UploadFile) (hf : f ∈ r.files)
    (hbad : fileFilterOk f = false ∨ fileSizeOk f = false) :
    (∃ e, postListing st r now ts = .error e) ∧
      stepListings st r now ts = (st, none) := by
  have hval : ∃ e, validateFiles r.files = some e := by
    unfold validateFiles
    by_cases hlen : 5 < r.files.length
    · exact ⟨.tooManyFiles, by simp [hlen]⟩
    · rcases hbad with hb | hb
      · have hsome : (r.files.find? (fun g => !fileFilterOk g)).isSome := by
          rw [List.find?_isSome]
          exact ⟨f, hf, by simp [hb]⟩
        cases hfind : r.files.find? (fun g => !fileFilterOk g) with
        | none => rw [hfind] at hsome; simp at hsome
        | some g => exact ⟨.badFileType, by simp [hlen, hfind]⟩
      · cases hfind : r.files.find? (fun g => !fileFilterOk g) with
        | some g => exact ⟨.badFileType, by simp [hlen, hfind]⟩
        | none =>
          have hsome : (r.files.find? (fun g => !fileSizeOk g)).isSome := by
            rw [List.find?_isSome]
            exact ⟨f, hf, by simp [hb]⟩
          cases hfind2 : r.files.find? (fun g => !fileSizeOk g) with
          | none => rw [hfind2] at hsome; simp at hsome
          | some g => exact ⟨.fileTooLarge, by simp [hlen, hfind, hfind2]⟩
  obtain ⟨e, he⟩ := hval
  refine ⟨⟨e, ?_⟩, ?_⟩
  · unfold postListing; rw [he]
  · unfold stepListings postListing; rw [he]

/-- C3 (witness): the amended claim at a concrete GIF upload: the request
errors and the empty store stays empty. -/
theorem claim_C3_witness :
    (∃ e, postListing [] reqGif "n" "t" = .error e) ∧
      stepListings [] reqGif "n" "t" = ([], none) :=
  claim_C3_amended [] reqGif "n" "t" gifFile (by decide) (.inl (by decide))

/-! ## Concrete payment records used in witnesses and counterexamples -/

/-- A raw order with every nullable field absent. -/
def rawBare : RawOrder :=
  { id := "1", orderId := "ORD-1", buyer := none, seller := none,
    buyerId := none, total := 100, subtotal := 90, tax := 10,
    paymentMethod := "bank", paymentDetails := none, status := "pending",
    date := none, items := none }

/-- A raw order with named buyer and seller. -/
def rawAlice : RawOrder :=
  { rawBare with buyer := some "Alice", seller := some "Sam" }

/-- A raw order with no buyer name but a buyer identifier. -/
def rawIdOnly : RawOrder :=
  { rawBare with buyerId := some 7 }

/-! ## Helper lemmas on JavaScript `||` -/

/-- A falsy nullable string falls through `||`. -/
lemma jsOrS_of_falsy (a : Option String) (b : String) (h : truthyS a = false) :
    jsOrS a b = b := by
  cases a with
  | none => rfl
  | some s =>
    simp only [truthyS, Bool.not_eq_false', beq_iff_eq] at h
    simp [jsOrS, h]

/-- A nonempty string survives `||`. -/
lemma jsOrS_of_nonempty (s b : String) (h : s ≠ "") : jsOrS (some s) b = s := by
  simp [jsOrS, h]

/-! ## C4: fetch failure fails soft -/

/-- C4: when the fetch fails, the view ends non-loading with its payments
list still empty and exactly one error notification emitted; the failure
is absorbed by the catch block (`fetchPayments` is total), so it never
propagates as a crash of the view. -/
theorem claim_C4_fetch_failure (message : String) :
    (fetchPayments initialView (.err message)).isLoading = false ∧
    (fetchPayments initialView (.err message)).payments = [] ∧
    (fetchPayments initialView (.err message)).toasts.length = 1 :=
  ⟨rfl, rfl, rfl⟩

/-! ## C5: buyer and seller fallbacks -/

/-- C5 (counterexample): with no buyer and no buyer identifier the view
model's buyer is "Buyer ID: Unknown", not the "Unknown" the claim
prescribes: the identifier fallback is interpolated into the "Buyer ID: "
template even when the identifier itself is missing. -/
theorem claim_C5_counterexample :
    (transformOrder rawBare).buyer = some "Buyer ID: Unknown" ∧
      (transformOrder rawBare).buyer ≠ some "Unknown" := by
  decide

/-- C5 (amended): buyer is the raw buyer when that is a nonempty string,
otherwise "Buyer ID: {id}" when a truthy buyer identifier is present and
"Buyer ID: Unknown" when it is not; seller is the raw seller when
nonempty and "Unknown Seller" otherwise. -/
theorem claim_C5_amended (o : RawOrder) :
    (∀ b : String, o.buyer = some b → b ≠ "" → (transformOrder o).buyer = some b) ∧
    (∀ n : Int, truthyS o.buyer = false → o.buyerId = some n → n ≠ 0 →
      (transformOrder o).buyer = some ("Buyer ID: " ++ toString n)) ∧
    (truthyS o.buyer = false → truthyI o.buyerId = false →
      (transformOrder o).buyer = some "Buyer ID: Unknown") ∧
    (∀ s : String, o.seller = some s → s ≠ "" → (transformOrder o).seller = some s) ∧
    (truthyS o.seller = false → (transformOrder o).seller = some "Unknown Seller") := by
  refine ⟨?_, ?_, ?_, ?_, ?_⟩
  · intro b hb hbne
    simp [transformOrder, hb, jsOrS_of_nonempty b _ hbne]
  · intro n hfal hid hn
    simp [transformOrder, jsOrS_of_falsy _ _ hfal, buyerTag, hid, hn]
  · intro hfal hidfal
    have htag : buyerTag o.buyerId = "Buyer ID: Unknown" := by
      cases hid : o.buyerId with
      | none => rfl
      | some n =>
        rw [hid] at hidfal
        simp only [truthyI, Bool.not_eq_false', beq_iff_eq] at hidfal
        simp [buyerTag, hidfal]
    simp [transformOrder, jsOrS_of_falsy _ _ hfal, htag]
  · intro s hs hsne
    simp [transformOrder, hs, jsOrS_of_nonempty s _ hsne]
  · intro hfal
    simp [transformOrder, jsOrS_of_falsy _ _ hfal]

/-- C5 (witness): the amended claim at three concrete orders: a named
buyer is kept, a missing buyer with identifier 7 becomes "Buyer ID: 7",
and a missing seller becomes "Unknown Seller". -/
theorem claim_C5_witness :
    (transformOrder rawAlice).buyer = some "Alice" ∧
      (transformOrder rawIdOnly).buyer = some ("Buyer ID: " ++ toString (7 : Int)) ∧
      (transformOrder rawBare).seller = some "Unknown Seller" :=
  ⟨(claim_C5_amended rawAlice).1 "Alice" rfl (by decide),
   (claim_C5_amended rawIdOnly).2.1 7 (by decide) rfl (by decide),
   (claim_C5_amended rawBare).2.2.2.2 (by decide)⟩

/-! ## C10: amount comes from the raw total -/

/-- C10: the view model's amount is exactly the raw order's total and its
method exactly the raw payment method; the amount is invariant under any
change of subtotal and tax, so it is never recomputed from them. -/
theorem claim_C10_amount_method (o : RawOrder) (s t : Int) :
    (transformOrder o).amount = o.total ∧
    (transformOrder o).method = o.paymentMethod ∧
    (transformOrder { o with subtotal := s, tax := t }).amount =
      (transformOrder o).amount :=
  ⟨rfl, rfl, rfl⟩

/-! ## C6: search semantics -/

/-- The character data of a lowercased string. -/
lemma lowerStr_data (s : String) : (lowerStr s).data = s.data.map Char.toLower :=
  rfl

/-- The empty needle occurs in every haystack. -/
lemma occursIn_nil_left (hay : List Char) : occursIn [] hay = true := by
  unfold occursIn
  simp [leadsWith]

/-- In the empty haystack, occurrence is head-anchored occurrence. -/
lemma occursIn_nil_right (needle : List Char) :
    occursIn needle [] = leadsWith needle [] := by
  unfold occursIn
  simp

/-- An empty search term is found in any field. -/
lemma jsIncludes_lower_empty_term (hay term : String) (ht : term.data = []) :
    jsIncludes (lowerStr hay) (lowerStr term) = true := by
  show occursIn (lowerStr term).data (lowerStr hay).data = true
  rw [lowerStr_data, ht]
  exact occursIn_nil_left _

/-- A nonempty search term is never found in an empty field. -/
lemma jsIncludes_empty_hay (term : String) (c : Char) (cs : List Char)
    (ht : term.data = c :: cs) :
    jsIncludes (lowerStr "") (lowerStr term) = false := by
  show occursIn (lowerStr term).data (lowerStr "").data = false
  have h1 : (lowerStr term).data = Char.toLower c :: cs.map Char.toLower := by
    rw [lowerStr_data, ht]
    rfl
  have h2 : (lowerStr "").data = [] := rfl
  rw [h1, h2, occursIn_nil_right]
  rfl

/-- The truthiness guards in the search predicate change nothing: the only
record they can exclude is one with an empty buyer or seller, and an empty
field can only contain the empty term, which every record's order
identifier contains as well. -/
lemma searchMatch_eq_spec (term : String) (p : Payment) :
    searchMatch term p = specSearchHit term p := by
  rcases htd : term.data with - | ⟨c, cs⟩
  · have horder : jsIncludes (lowerStr p.orderId) (lowerStr term) = true :=
      jsIncludes_lower_empty_term p.orderId term htd
    unfold searchMatch specSearchHit
    rw [horder]
    simp
  · have hbuyer :
        (match p.buyer with
          | some b => !(b == "") && jsIncludes (lowerStr b) (lowerStr term)
          | none => false) =
        (match p.buyer with
          | some b => jsIncludes (lowerStr b) (lowerStr term)
          | none => false) := by
      cases hb : p.buyer with
      | none => rfl
      | some b =>
        by_cases hbe : b = ""
        · subst hbe
          simp [jsIncludes_empty_hay term c cs htd]
        · simp [hbe]
    have hseller :
        (match p.seller with
          | some s => !(s == "") && jsIncludes (lowerStr s) (lowerStr term)
          | none => false) =
        (match p.seller with
          | some s => jsIncludes (lowerStr s) (lowerStr term)
          | none => false) := by
      cases hs : p.seller with
      | none => rfl
      | some s =>
        by_cases hse : s = ""
        · subst hse
          simp [jsIncludes_empty_hay term c cs htd]
        · simp [hse]
    unfold searchMatch specSearchHit
    rw [hbuyer, hseller]

/-- C6: a record passes the search exactly when the term is a
case-insensitive substring of its buyer, seller, order identifier, or
payment method; the empty term passes every record; membership in the
filtered list is exactly membership plus a search hit. -/
theorem claim_C6_search (term : String) (p : Payment) (l : List Payment) :
    searchMatch term p = specSearchHit term p ∧
    searchMatch "" p = true ∧
    (p ∈ filteredPayments term l ↔ p ∈ l ∧ specSearchHit term p = true) := by
  refine ⟨searchMatch_eq_spec term p, ?_, ?_⟩
  · have horder : jsIncludes (lowerStr p.orderId) (lowerStr "") = true :=
      jsIncludes_lower_empty_term p.orderId "" rfl
    unfold searchMatch
    rw [horder]
    simp
  · unfold filteredPayments
    rw [List.mem_filter, searchMatch_eq_spec term p]

/-! ## C7: sort toggling and comparator correctness -/

/-- Three-way string comparison is antisymmetric. -/
lemma strCmp_antisymm (a b : List Char) : strCmp a b = -strCmp b a := by
  induction a generalizing b with
  | nil => cases b <;> simp [strCmp]
  | cons x xs ih =>
    cases b with
    | nil => simp [strCmp]
    | cons y ys =>
      simp only [strCmp]
      rcases Nat.lt_trichotomy x.toNat y.toNat with h | h | h
      · simp [h, show ¬ y.toNat < x.toNat from by omega]
      · simp [show ¬ x.toNat < y.toNat from by omega,
          show ¬ y.toNat < x.toNat from by omega, ih ys]
      · simp [h, show ¬ x.toNat < y.toNat from by omega]

/-- The nonpositive side of `strCmp` is total. -/
lemma strCmp_le_total (a b : List Char) : strCmp a b ≤ 0 ∨ strCmp b a ≤ 0 := by
  rw [strCmp_antisymm a b]
  omega

/-- The nonpositive side of `strCmp` is transitive. -/
lemma strCmp_le_trans (a b c : List Char)
    (h1 : strCmp a b ≤ 0) (h2 : strCmp b c ≤ 0) : strCmp a c ≤ 0 := by
  induction a generalizing b c with
  | nil => cases c <;> simp [strCmp]
  | cons x xs ih =>
    cases b with
    | nil => simp [strCmp] at h1
    | cons y ys =>
      cases c with
      | nil => simp [strCmp] at h2
      | cons z zs =>
        simp only [strCmp] at h1 h2 ⊢
        split_ifs at h1 h2 ⊢ <;> first | omega | exact ih ys zs h1 h2

/-- `localeCmp` inherits antisymmetry. -/
lemma localeCmp_antisymm (x y : Option String) : localeCmp x y = -localeCmp y x :=
  strCmp_antisymm _ _

/-- `localeCmp` inherits transitivity of the nonpositive side. -/
lemma localeCmp_le_trans (x y z : Option String)
    (h1 : localeCmp x y ≤ 0) (h2 : localeCmp y z ≤ 0) : localeCmp x z ≤ 0 :=
  strCmp_le_trans _ _ _ h1 h2

/-- The comparator's "may precede" relation is total. -/
lemma cmpLE_total (gt : String → Int) (col : Option String) (dir : SortDir)
    (a b : Payment) :
    (cmpLE gt col dir a b || cmpLE gt col dir b a) = true := by
  have key : paymentCompare gt col dir a b ≤ 0 ∨ paymentCompare gt col dir b a ≤ 0 := by
    unfold paymentCompare
    cases col with
    | none => dsimp only; left; omega
    | some c =>
      dsimp only
      split_ifs
      · cases dir <;> simp only [dirVal] <;> omega
      · cases dir <;> simp only [dirVal] <;> omega
      · rw [localeCmp_antisymm b.buyer a.buyer]
        cases dir <;> simp only [dirVal] <;> omega
      · rw [localeCmp_antisymm b.seller a.seller]
        cases dir <;> simp only [dirVal] <;> omega
      · rw [strCmp_antisymm b.status.data a.status.data]
        cases dir <;> simp only [dirVal] <;> omega
      · left; omega
  simp only [cmpLE, Bool.or_eq_true, decide_eq_true_eq]
  exact key

/-- The comparator's "may precede" relation is transitive. -/
lemma cmpLE_trans (gt : String → Int) (col : Option String) (dir : SortDir)
    (a b c' : Payment)
    (h1 : cmpLE gt col dir a b = true) (h2 : cmpLE gt col dir b c' = true) :
    cmpLE gt col dir a c' = true := by
  simp only [cmpLE, decide_eq_true_eq] at h1 h2 ⊢
  unfold paymentCompare at h1 h2 ⊢
  cases col with
  | none => dsimp only at h1 h2 ⊢; omega
  | some c =>
    dsimp only at h1 h2 ⊢
    split_ifs at h1 h2 ⊢
    · cases dir <;> simp only [dirVal] at h1 h2 ⊢ <;> omega
    · cases dir <;> simp only [dirVal] at h1 h2 ⊢ <;> omega
    · cases dir <;> simp only [dirVal] at h1 h2 ⊢
      · have := localeCmp_le_trans a.buyer b.buyer c'.buyer (by omega) (by omega)
        omega
      · rw [localeCmp_antisymm a.buyer b.buyer] at h1
        rw [localeCmp_antisymm b.buyer c'.buyer] at h2
        have := localeCmp_le_trans c'.buyer b.buyer a.buyer (by omega) (by omega)
        rw [localeCmp_antisymm a.buyer c'.buyer]
        omega
    · cases dir <;> simp only [dirVal] at h1 h2 ⊢
      · have := localeCmp_le_trans a.seller b.seller c'.seller (by omega) (by omega)
        omega
      · rw [localeCmp_antisymm a.seller b.seller] at h1
        rw [localeCmp_antisymm b.seller c'.seller] at h2
        have := localeCmp_le_trans c'.seller b.seller a.seller (by omega) (by omega)
        rw [localeCmp_antisymm a.seller c'.seller]
        omega
    · cases dir <;> simp only [dirVal] at h1 h2 ⊢
      · have := strCmp_le_trans a.status.data b.status.data c'.status.data
          (by omega) (by omega)
        omega
      · rw [strCmp_antisymm a.status.data b.status.data] at h1
        rw [strCmp_antisymm b.status.data c'.status.data] at h2
        have := strCmp_le_trans c'.status.data b.status.data a.status.data
          (by omega) (by omega)
        rw [strCmp_antisymm a.status.data c'.status.data]
        omega
    · omega

/-- C7: clicking the active column keeps it and reverses the direction;
clicking a different column selects it with ascending direction; and the
displayed ordering is a permutation of the input sorted by the selected
column's comparator (date by timestamp with a falsy date as epoch 0,
amount numerically, buyer/seller/status by string comparison with a
falsy string as "", all as encoded in `paymentCompare`). -/
theorem claim_C7_sorting (gt : String → Int) (colPrev clicked : String)
    (dir : SortDir) (col : Option String) (l : List Payment) :
    (handleSort clicked { sortColumn := some colPrev, sortDirection := dir } =
      if colPrev = clicked then
        { sortColumn := some colPrev, sortDirection := toggleDir dir }
      else
        { sortColumn := some clicked, sortDirection := SortDir.asc }) ∧
    (handleSort clicked { sortColumn := none, sortDirection := dir } =
      { sortColumn := some clicked, sortDirection := SortDir.asc }) ∧
    (sortedPayments gt col dir l).Perm l ∧
    List.Pairwise (fun a b => paymentCompare gt col dir a b ≤ 0)
      (sortedPayments gt col dir l) := by
  refine ⟨?_, ?_, ?_, ?_⟩
  · by_cases h : colPrev = clicked <;> simp [handleSort, h]
  · simp [handleSort]
  · exact List.mergeSort_perm l _
  · have hp := List.sorted_mergeSort
      (fun a b c' h1 h2 => cmpLE_trans gt col dir a b c' h1 h2)
      (fun a b => cmpLE_total gt col dir a b) l
    exact hp.imp (fun h => by simpa [cmpLE, decide_eq_true_eq] using h)

/-! ## C8: status tabs -/

/-- C8: the "all" tab passes every record and each other tab passes
exactly the records whose status matches the tab case-insensitively; the
status filter is the last stage, applied to the searched-and-sorted list;
each named tab's count is computed over the full fetched collection and
equals the size of that tab's status filter of the full collection, while
"all" counts the whole collection. -/
theorem claim_C8_status_tabs (gt : String → Int) (term tab : String)
    (col : Option String) (dir : SortDir) (p : Payment) (l : List Payment) :
    filterPaymentsByStatus "all-payments" l = l ∧
    (tab ≠ "all-payments" →
      (p ∈ filterPaymentsByStatus tab l ↔
        p ∈ l ∧ lowerStr p.status = lowerStr tab)) ∧
    displayedPayments gt term col dir tab l =
      filterPaymentsByStatus tab (sortedPayments gt col dir (filteredPayments term l)) ∧
    tabCount l "all-payments" = l.length ∧
    tabCount l "completed" = (filterPaymentsByStatus "completed" l).length ∧
    tabCount l "pending" = (filterPaymentsByStatus "pending" l).length ∧
    tabCount l "cancelled" = (filterPaymentsByStatus "cancelled" l).length := by
  refine ⟨?_, ?_, rfl, rfl, ?_, ?_, ?_⟩
  · simp [filterPaymentsByStatus]
  · intro htab
    have hne : (tab == "all-payments") = false := by simp [htab]
    simp [filterPaymentsByStatus, hne, List.mem_filter]
  · simp only [tabCount, filterPaymentsByStatus,
      show (("completed" : String) == "all-payments") = false from by decide,
      show lowerStr "completed" = "completed" from by decide]
    simp
  · simp only [tabCount, filterPaymentsByStatus,
      show (("pending" : String) == "all-payments") = false from by decide,
      show lowerStr "pending" = "pending" from by decide]
    simp
  · simp only [tabCount, filterPaymentsByStatus,
      show (("cancelled" : String) == "all-payments") = false from by decide,
      show lowerStr "cancelled" = "cancelled" from by decide]
    simp

/-- C8 (witness): the claim at a concrete pending payment: the "pending"
tab includes it exactly because its status matches case-insensitively. -/
theorem claim_C8_witness :
    transformOrder rawBare ∈
        filterPaymentsByStatus "pending" [transformOrder rawBare] ↔
      transformOrder rawBare ∈ [transformOrder rawBare] ∧
        lowerStr (transformOrder rawBare).status = lowerStr "pending" :=
  (claim_C8_status_tabs (fun _ => 0) "" "pending" none SortDir.asc
      (transformOrder rawBare) [transformOrder rawBare]).2.1 (by decide)

/-! ## C9: cell formatters -/

/-- Payment details that are only a payment-intent identifier, in the
specification's words: the identifier is present and nothing else is. -/
def specOnlyStripe (d : PaymentDetails) : Bool :=
  truthyS d.stripePaymentIntentId && !truthyS d.bankName && !truthyS d.accountNumber

/-- Details with a bank name and a payment-intent identifier but no
account number. -/
def detailsMixed : PaymentDetails :=
  { bankName := some "HBL", accountNumber := none,
    stripePaymentIntentId := some "pi_1" }

/-- Details with both bank fields and no payment-intent identifier. -/
def detailsBank : PaymentDetails :=
  { bankName := some "HBL", accountNumber := some "123",
    stripePaymentIntentId := none }

/-- C9 (counterexample): with a bank name and a payment-intent identifier
but no account number, the identifier is not the only field present and
bank and account are not both present, so the claim prescribes "N/A"; the
code renders "Stripe Payment", because it only requires that bank name
and account number are not both present. -/
theorem claim_C9_counterexample :
    specOnlyStripe detailsMixed = false ∧
      (truthyS detailsMixed.bankName && truthyS detailsMixed.accountNumber) = false ∧
      formatPaymentDetails (some detailsMixed) = "Stripe Payment" ∧
      formatPaymentDetails (some detailsMixed) ≠ "N/A" := by
  decide

/-- C9 (amended): the details cell renders "{bank} - {account}" when bank
name and account number are both present, "Stripe Payment" when a
payment-intent identifier is present and bank name and account number are
not both present, and "N/A" otherwise (in particular for null details);
the date cell renders "N/A" exactly when the date is missing or empty,
for any date formatter that never itself yields "N/A". -/
theorem claim_C9_formatting (fmt : String → String) (hfmt : ∀ s, fmt s ≠ "N/A") :
    (∀ d : PaymentDetails, truthyS d.bankName = true → truthyS d.accountNumber = true →
      formatPaymentDetails (some d) =
        jsOrS d.bankName "" ++ " - " ++ jsOrS d.accountNumber "") ∧
    (∀ d : PaymentDetails, (truthyS d.bankName && truthyS d.accountNumber) = false →
      truthyS d.stripePaymentIntentId = true →
      formatPaymentDetails (some d) = "Stripe Payment") ∧
    (∀ d : PaymentDetails, (truthyS d.bankName && truthyS d.accountNumber) = false →
      truthyS d.stripePaymentIntentId = false →
      formatPaymentDetails (some d) = "N/A") ∧
    formatPaymentDetails none = "N/A" ∧
    (∀ d : Option String, formatDate fmt d = "N/A" ↔ (d = none ∨ d = some "")) := by
  refine ⟨?_, ?_, ?_, rfl, ?_⟩
  · intro d hb ha
    simp [formatPaymentDetails, hb, ha]
  · intro d hba hs
    simp [formatPaymentDetails, hba, hs]
  · intro d hba hs
    simp [formatPaymentDetails, hba, hs]
  · intro d
    cases d with
    | none => simp [formatDate]
    | some s =>
      by_cases hse : s = ""
      · subst hse
        simp [formatDate]
      · simp [formatDate, hse, hfmt s]

/-- C9 (witness): the amended claim at concrete inputs: full bank details
render "HBL - 123" and a missing date renders "N/A". -/
theorem claim_C9_witness :
    formatPaymentDetails (some detailsBank) = "HBL - 123" ∧
      formatDate (fun _ => "1/1/2025") none = "N/A" := by
  constructor
  · have h := (claim_C9_formatting (fun _ => "1/1/2025") (by intro s; show "1/1/2025" ≠ "N/A"; decide)).1
      detailsBank (by decide) (by decide)
    exact h.trans (by decide)
  · exact ((claim_C9_formatting (fun _ => "1/1/2025") (by intro s; show "1/1/2025" ≠ "N/A"; decide)).2.2.2.2
      none).mpr (Or.inl rfl)

end FYP
